import Mathlib

/-!
Shallow embedding of the LinkNode tracking-and-analytics backend
(controllers, recommendation engine, ETA service, route analysis service,
socket handler) and proofs about the frozen specification claims.

Numbers handled exactly: JavaScript numeric literals and arithmetic are
modelled over `Rat` where the code only adds, compares and divides decimal
values, and over `Real` where trigonometric functions (haversine distance)
are involved.  `Option Rat` models a JSON field that may be `null`/absent.
-/

/-- JavaScript truthiness of an optional numeric field:
`undefined`, `null` and `0` are falsy. -/
def jsTruthy : Option ℚ → Bool
  | none => false
  | some q => q != 0

/-- JavaScript `x || y` for numbers: returns `y` when `x` is falsy (`0`, `NaN`). -/
def jsOrQ (x y : ℚ) : ℚ := if x = 0 then y else x

/-- JavaScript comparison `o > c` where `o` may be `null`/`undefined`
(both compare false against a number). -/
def optGt (o : Option ℚ) (c : ℚ) : Bool :=
  match o with
  | none => false
  | some s => decide (s > c)

/-- `array.slice(-n)`: the last `min n length` elements. -/
def takeLast {α : Type} (n : ℕ) (l : List α) : List α := l.drop (l.length - n)

/-- A row of the `tracking_locations` table / a location sample. -/
structure TrackRow where
  latitude : ℚ
  longitude : ℚ
  accuracy : Option ℚ
  speed : Option ℚ
  heading : Option ℚ
  timestamp : ℚ
deriving DecidableEq, Repr

/-- A row of the `shipments` table (fields the tracking core reads).
The destination coordinate fields follow the spec data model
(origin/destination coordinates and addresses). -/
structure Shipment where
  id : ℕ
  driver_id : ℕ
  organization_id : Option ℕ
  status : String
  destination_latitude : ℚ
  destination_longitude : ℚ
  planned_delivery_time : ℝ

/-- An advisory produced by the recommendation engine
(`{type, message, severity, data}` object; modelled fields are the
enumerated `type` and `severity`). -/
structure Advisory where
  type : String
  severity : String
deriving DecidableEq, Repr

/-- `smartTrackingController.calculateRiskScore`: empty list gives `0`,
otherwise severity weights are summed (`high` 30, `medium` 15, `low` 5,
anything else falls through the `switch`) and capped at 100. -/
def calculateRiskScore (recommendations : List Advisory) : ℕ :=
  if recommendations.length = 0 then 0
  else
    let riskScore := recommendations.foldl
      (fun acc rec =>
        if rec.severity = "high" then acc + 30
        else if rec.severity = "medium" then acc + 15
        else if rec.severity = "low" then acc + 5
        else acc) 0
    min riskScore 100

/-- Severity weight table as written in the spec (low=5, medium=15, high=30). -/
def severityWeight (severity : String) : ℕ :=
  if severity = "high" then 30
  else if severity = "medium" then 15
  else if severity = "low" then 5
  else 0

/-- Spec-side risk formula: `min(100, Σ severity weight)`. -/
def specRiskScore (recommendations : List Advisory) : ℕ :=
  min 100 (List.sum (recommendations.map (fun r => severityWeight r.severity)))

/-- `trackingHistory.map(t => t.speed).filter(s => s > 0)` (null speeds
fail the comparison). -/
def positiveSpeeds (l : List TrackRow) : List ℚ :=
  l.foldr (fun t acc => match t.speed with
    | some s => if s > 0 then s :: acc else acc
    | none => acc) []

/-- `RecommendationService.analyzeSpeedPatterns`: with at least 10 history
rows, compares the current speed against the average of the last 10
positive speeds; below 30% (and positive) fires a low-severity
`performance` advisory. -/
def RecommendationService.analyzeSpeedPatterns (currentLocation : TrackRow)
    (trackingHistory : List TrackRow) : Option Advisory :=
  if trackingHistory.length < 10 then none
  else
    let recentSpeeds := positiveSpeeds (takeLast 10 trackingHistory)
    let avgSpeed : ℚ := recentSpeeds.sum / recentSpeeds.length
    let currentSpeed : ℚ := (currentLocation.speed).getD 0
    if currentSpeed < avgSpeed * (3/10) ∧ currentSpeed > 0 then
      some { type := "performance", severity := "low" }
    else none

/-- `RecommendationService.analyzeIdleTime`: with at least 5 history rows,
looks at samples of the trailing 10-minute window; if none has speed
above 5 and the window is nonempty, fires a medium `idle_alert`. -/
def RecommendationService.analyzeIdleTime (currentLocation : TrackRow)
    (trackingHistory : List TrackRow) (now : ℚ) : Option Advisory :=
  if trackingHistory.length < 5 then none
  else
    let tenMinutesAgo := now - 10 * 60 * 1000
    let recentTracking := trackingHistory.filter (fun t => t.timestamp > tenMinutesAgo)
    let hasMovement := recentTracking.any (fun t => optGt t.speed 5)
    if ¬hasMovement ∧ recentTracking.length > 0 then
      some { type := "idle_alert", severity := "medium" }
    else none

/-- `RecommendationService.analyzeGPSAccuracy`: accuracy above 1000 fires a
`gps_warning`, high severity above 5000, medium otherwise. -/
def RecommendationService.analyzeGPSAccuracy (locationData : TrackRow) :
    Option Advisory :=
  let accuracy := (locationData.accuracy).getD 0
  if accuracy > 1000 then
    some { type := "gps_warning",
           severity := if accuracy > 5000 then "high" else "medium" }
  else none

/-! ## Geometry: JavaScript `Math.atan2` and the haversine formula -/

/-- JavaScript `Math.atan2(y, x)` (signed-zero subtleties aside; the
haversine code only applies it to non-negative square roots). -/
noncomputable def jsAtan2 (y x : ℝ) : ℝ :=
  if 0 < x then Real.arctan (y / x)
  else if x < 0 then
    (if 0 ≤ y then Real.arctan (y / x) + Real.pi else Real.arctan (y / x) - Real.pi)
  else
    (if 0 < y then Real.pi / 2 else if y < 0 then -(Real.pi / 2) else 0)

/-- `RouteAnalysisService.haversineDistance` (the same formula appears
verbatim in `RecommendationService` and `ETAService`). -/
noncomputable def RouteAnalysisService.haversineDistance
    (lat1 lon1 lat2 lon2 : ℝ) : ℝ :=
  let R : ℝ := 6371000
  let φ1 := lat1 * Real.pi / 180
  let φ2 := lat2 * Real.pi / 180
  let Δφ := (lat2 - lat1) * Real.pi / 180
  let Δlam := (lon2 - lon1) * Real.pi / 180
  let a := Real.sin (Δφ/2) * Real.sin (Δφ/2) +
           Real.cos φ1 * Real.cos φ2 * (Real.sin (Δlam/2) * Real.sin (Δlam/2))
  let c := 2 * jsAtan2 (Real.sqrt a) (Real.sqrt (1 - a))
  R * c

/-- `RecommendationService.haversineDistance`: same formula as the route
analysis copy. -/
noncomputable def RecommendationService.haversineDistance
    (lat1 lon1 lat2 lon2 : ℝ) : ℝ :=
  RouteAnalysisService.haversineDistance lat1 lon1 lat2 lon2

/-- `ETAService.haversineDistance`: same formula as the route analysis
copy. -/
noncomputable def ETAService.haversineDistance
    (lat1 lon1 lat2 lon2 : ℝ) : ℝ :=
  RouteAnalysisService.haversineDistance lat1 lon1 lat2 lon2

/-! Spherical geometry facts used to bound the haversine distance:
the formula computes `R` times the central angle between the two unit
vectors determined by the coordinates, and central angles obey the
triangle inequality. -/

/-- Euclidean dot product on ℝ³ (as nested pairs). -/
def dot3 (a b : ℝ × ℝ × ℝ) : ℝ :=
  a.1 * b.1 + a.2.1 * b.2.1 + a.2.2 * b.2.2

/-- Unit vector of a latitude/longitude pair (in radians). -/
noncomputable def sphVec (φ lam : ℝ) : ℝ × ℝ × ℝ :=
  (Real.cos φ * Real.cos lam, Real.cos φ * Real.sin lam, Real.sin φ)

theorem dot3_self_sphVec (φ lam : ℝ) : dot3 (sphVec φ lam) (sphVec φ lam) = 1 := by
  have h1 := Real.sin_sq_add_cos_sq φ
  have h2 := Real.sin_sq_add_cos_sq lam
  simp only [dot3, sphVec]
  nlinarith [h1, h2]

/-- Cauchy–Schwarz in ℝ³, via the Lagrange identity. -/
theorem cauchy3 (a b : ℝ × ℝ × ℝ) : (dot3 a b) ^ 2 ≤ dot3 a a * dot3 b b := by
  simp only [dot3]
  nlinarith [sq_nonneg (a.1 * b.2.1 - a.2.1 * b.1),
             sq_nonneg (a.1 * b.2.2 - a.2.2 * b.1),
             sq_nonneg (a.2.1 * b.2.2 - a.2.2 * b.2.1)]

theorem dot3_le_one {u v : ℝ × ℝ × ℝ} (hu : dot3 u u = 1) (hv : dot3 v v = 1) :
    -1 ≤ dot3 u v ∧ dot3 u v ≤ 1 := by
  have h := cauchy3 u v
  rw [hu, hv] at h
  constructor <;> nlinarith [h]

def sub3 (a b : ℝ × ℝ × ℝ) : ℝ × ℝ × ℝ :=
  (a.1 - b.1, a.2.1 - b.2.1, a.2.2 - b.2.2)

def smul3 (c : ℝ) (a : ℝ × ℝ × ℝ) : ℝ × ℝ × ℝ :=
  (c * a.1, c * a.2.1, c * a.2.2)

theorem dot3_perp_self (u v : ℝ × ℝ × ℝ) (hu : dot3 u u = 1) (hv : dot3 v v = 1) :
    dot3 (sub3 u (smul3 (dot3 u v) v)) (sub3 u (smul3 (dot3 u v) v))
      = 1 - (dot3 u v) ^ 2 := by
  simp only [dot3, sub3, smul3] at hu hv ⊢
  linear_combination hu + ((u.1 * v.1 + u.2.1 * v.2.1 + u.2.2 * v.2.2) ^ 2) * hv

theorem dot3_comm (a b : ℝ × ℝ × ℝ) : dot3 a b = dot3 b a := by
  simp only [dot3]; ring

theorem dot3_perp_cross (u v w : ℝ × ℝ × ℝ) (hv : dot3 v v = 1) :
    dot3 (sub3 u (smul3 (dot3 u v) v)) (sub3 w (smul3 (dot3 w v) v))
      = dot3 u w - dot3 u v * dot3 w v := by
  simp only [dot3, sub3, smul3] at hv ⊢
  linear_combination ((u.1 * v.1 + u.2.1 * v.2.1 + u.2.2 * v.2.2)
    * (w.1 * v.1 + w.2.1 * v.2.1 + w.2.2 * v.2.2)) * hv

/-- arccos is antitone. -/
theorem arccos_le_arccos_of_le {x y : ℝ} (hxy : x ≤ y) :
    Real.arccos y ≤ Real.arccos x := by
  unfold Real.arccos
  have := Real.monotone_arcsin hxy
  linarith

/-- Central-angle triangle inequality on the unit sphere. -/
theorem arccos_dot3_triangle (u v w : ℝ × ℝ × ℝ)
    (hu : dot3 u u = 1) (hv : dot3 v v = 1) (hw : dot3 w w = 1) :
    Real.arccos (dot3 u w) ≤ Real.arccos (dot3 u v) + Real.arccos (dot3 v w) := by
  obtain ⟨h1l, h1r⟩ := dot3_le_one hu hv
  obtain ⟨h2l, h2r⟩ := dot3_le_one hv hw
  by_cases hbig : Real.pi ≤ Real.arccos (dot3 u v) + Real.arccos (dot3 v w)
  · exact le_trans (Real.arccos_le_pi (dot3 u w)) hbig
  push_neg at hbig
  have hc : dot3 v w = dot3 w v := dot3_comm v w
  have hkey : (dot3 u w - dot3 u v * dot3 v w) ^ 2
      ≤ (1 - (dot3 u v) ^ 2) * (1 - (dot3 v w) ^ 2) := by
    have h := cauchy3 (sub3 u (smul3 (dot3 u v) v)) (sub3 w (smul3 (dot3 w v) v))
    rw [dot3_perp_self u v hu hv, dot3_perp_self w v hw hv,
        dot3_perp_cross u v w hv, ← hc] at h
    exact h
  have habs : |dot3 u w - dot3 u v * dot3 v w|
      ≤ Real.sqrt ((1 - (dot3 u v) ^ 2) * (1 - (dot3 v w) ^ 2)) := by
    rw [← Real.sqrt_sq_eq_abs]
    exact Real.sqrt_le_sqrt hkey
  have hs1 : Real.sqrt ((1 - (dot3 u v) ^ 2) * (1 - (dot3 v w) ^ 2))
      = Real.sqrt (1 - (dot3 u v) ^ 2) * Real.sqrt (1 - (dot3 v w) ^ 2) := by
    rw [Real.sqrt_mul (by nlinarith)]
  have hlow : dot3 u v * dot3 v w
      - Real.sqrt (1 - (dot3 u v) ^ 2) * Real.sqrt (1 - (dot3 v w) ^ 2) ≤ dot3 u w := by
    have h := (abs_le.mp habs).1
    rw [hs1] at h
    linarith
  have hcosS : Real.cos (Real.arccos (dot3 u v) + Real.arccos (dot3 v w))
      = dot3 u v * dot3 v w
        - Real.sqrt (1 - (dot3 u v) ^ 2) * Real.sqrt (1 - (dot3 v w) ^ 2) := by
    rw [Real.cos_add, Real.cos_arccos h1l h1r, Real.cos_arccos h2l h2r,
        Real.sin_arccos, Real.sin_arccos]
  have hmono : Real.arccos (dot3 u w)
      ≤ Real.arccos (Real.cos (Real.arccos (dot3 u v) + Real.arccos (dot3 v w))) := by
    apply arccos_le_arccos_of_le
    rw [hcosS]; exact hlow
  calc Real.arccos (dot3 u w)
      ≤ Real.arccos (Real.cos (Real.arccos (dot3 u v) + Real.arccos (dot3 v w))) := hmono
    _ = Real.arccos (dot3 u v) + Real.arccos (dot3 v w) := by
        apply Real.arccos_cos
        · have ha := Real.arccos_nonneg (dot3 u v)
          have hb := Real.arccos_nonneg (dot3 v w)
          linarith
        · exact le_of_lt hbig

theorem two_jsAtan2_sqrt {a : ℝ} (h0 : 0 ≤ a) (h1 : a ≤ 1) :
    2 * jsAtan2 (Real.sqrt a) (Real.sqrt (1 - a)) = Real.arccos (1 - 2 * a) := by
  rcases eq_or_lt_of_le h1 with heq | hlt
  · subst heq
    have hz : Real.sqrt (1 - 1) = 0 := by norm_num
    have ho : Real.sqrt 1 = 1 := Real.sqrt_one
    rw [hz, ho]
    have : jsAtan2 1 0 = Real.pi / 2 := by
      unfold jsAtan2
      norm_num
    rw [this, (by norm_num : (1:ℝ) - 2 * 1 = -1), Real.arccos_neg_one]
    ring
  · have hpos : 0 < Real.sqrt (1 - a) := Real.sqrt_pos.mpr (by linarith)
    have hj : jsAtan2 (Real.sqrt a) (Real.sqrt (1 - a))
        = Real.arctan (Real.sqrt a / Real.sqrt (1 - a)) := by
      unfold jsAtan2
      rw [if_pos hpos]
    rw [hj]
    set t := Real.sqrt a / Real.sqrt (1 - a) with ht
    have htn : 0 ≤ t := div_nonneg (Real.sqrt_nonneg a) (le_of_lt hpos)
    have ht2 : t ^ 2 = a / (1 - a) := by
      rw [ht, div_pow, Real.sq_sqrt h0, Real.sq_sqrt (by linarith : (0:ℝ) ≤ 1 - a)]
    have hcos : Real.cos (2 * Real.arctan t) = 1 - 2 * a := by
      rw [Real.cos_two_mul, Real.cos_sq_arctan, ht2]
      have hne : (1:ℝ) - a ≠ 0 := by linarith
      field_simp
      ring
    have hnn : 0 ≤ 2 * Real.arctan t := by
      have h := Real.arctan_strictMono.monotone htn
      rw [Real.arctan_zero] at h
      linarith
    have hle : 2 * Real.arctan t ≤ Real.pi := by
      have h := Real.arctan_lt_pi_div_two t
      linarith
    rw [← hcos, Real.arccos_cos hnn hle]

theorem sphVec_dot_formula (p1 l1 p2 l2 : ℝ) :
    dot3 (sphVec p1 l1) (sphVec p2 l2)
      = 1 - 2 * (Real.sin ((p2 - p1) / 2) * Real.sin ((p2 - p1) / 2)
          + Real.cos p1 * Real.cos p2
            * (Real.sin ((l2 - l1) / 2) * Real.sin ((l2 - l1) / 2))) := by
  have s1 : Real.sin ((p2 - p1) / 2) * Real.sin ((p2 - p1) / 2)
      = 1 / 2 - Real.cos (p2 - p1) / 2 := by
    have h := Real.sin_sq_eq_half_sub ((p2 - p1) / 2)
    rw [(by ring : (2:ℝ) * ((p2 - p1) / 2) = p2 - p1), pow_two] at h
    linarith
  have s2 : Real.sin ((l2 - l1) / 2) * Real.sin ((l2 - l1) / 2)
      = 1 / 2 - Real.cos (l2 - l1) / 2 := by
    have h := Real.sin_sq_eq_half_sub ((l2 - l1) / 2)
    rw [(by ring : (2:ℝ) * ((l2 - l1) / 2) = l2 - l1), pow_two] at h
    linarith
  rw [s1, s2, Real.cos_sub p2 p1, Real.cos_sub l2 l1]
  simp only [dot3, sphVec]
  ring

theorem haversine_eq_arccos (lat1 lon1 lat2 lon2 : ℝ) :
    RouteAnalysisService.haversineDistance lat1 lon1 lat2 lon2
      = 6371000 * Real.arccos (dot3
          (sphVec (lat1 * Real.pi / 180) (lon1 * Real.pi / 180))
          (sphVec (lat2 * Real.pi / 180) (lon2 * Real.pi / 180))) := by
  unfold RouteAnalysisService.haversineDistance
  have e1 : (lat2 - lat1) * Real.pi / 180 / 2
      = (lat2 * Real.pi / 180 - lat1 * Real.pi / 180) / 2 := by ring
  have e2 : (lon2 - lon1) * Real.pi / 180 / 2
      = (lon2 * Real.pi / 180 - lon1 * Real.pi / 180) / 2 := by ring
  simp only [e1, e2]
  have hdot := sphVec_dot_formula (lat1 * Real.pi / 180) (lon1 * Real.pi / 180)
    (lat2 * Real.pi / 180) (lon2 * Real.pi / 180)
  set A := Real.sin ((lat2 * Real.pi / 180 - lat1 * Real.pi / 180) / 2)
      * Real.sin ((lat2 * Real.pi / 180 - lat1 * Real.pi / 180) / 2)
    + Real.cos (lat1 * Real.pi / 180) * Real.cos (lat2 * Real.pi / 180)
      * (Real.sin ((lon2 * Real.pi / 180 - lon1 * Real.pi / 180) / 2)
        * Real.sin ((lon2 * Real.pi / 180 - lon1 * Real.pi / 180) / 2)) with hA
  obtain ⟨hl, hr⟩ := dot3_le_one
    (dot3_self_sphVec (lat1 * Real.pi / 180) (lon1 * Real.pi / 180))
    (dot3_self_sphVec (lat2 * Real.pi / 180) (lon2 * Real.pi / 180))
  rw [hdot] at hl hr
  have h0 : 0 ≤ A := by linarith
  have h1 : A ≤ 1 := by linarith
  rw [two_jsAtan2_sqrt h0 h1, ← hdot]

theorem haversine_nonneg (lat1 lon1 lat2 lon2 : ℝ) :
    0 ≤ RouteAnalysisService.haversineDistance lat1 lon1 lat2 lon2 := by
  rw [haversine_eq_arccos]
  have := Real.arccos_nonneg (dot3
    (sphVec (lat1 * Real.pi / 180) (lon1 * Real.pi / 180))
    (sphVec (lat2 * Real.pi / 180) (lon2 * Real.pi / 180)))
  nlinarith

theorem haversine_self (lat lon : ℝ) :
    RouteAnalysisService.haversineDistance lat lon lat lon = 0 := by
  rw [haversine_eq_arccos, dot3_self_sphVec, Real.arccos_one, mul_zero]

theorem haversine_triangle (lat1 lon1 lat2 lon2 lat3 lon3 : ℝ) :
    RouteAnalysisService.haversineDistance lat1 lon1 lat3 lon3
      ≤ RouteAnalysisService.haversineDistance lat1 lon1 lat2 lon2
        + RouteAnalysisService.haversineDistance lat2 lon2 lat3 lon3 := by
  rw [haversine_eq_arccos, haversine_eq_arccos, haversine_eq_arccos]
  have h := arccos_dot3_triangle
    (sphVec (lat1 * Real.pi / 180) (lon1 * Real.pi / 180))
    (sphVec (lat2 * Real.pi / 180) (lon2 * Real.pi / 180))
    (sphVec (lat3 * Real.pi / 180) (lon3 * Real.pi / 180))
    (dot3_self_sphVec _ _) (dot3_self_sphVec _ _) (dot3_self_sphVec _ _)
  nlinarith

theorem hav_eq_quarter_1 : RouteAnalysisService.haversineDistance 0 0 0 90
    = 6371000 * (Real.pi / 2) := by
  rw [haversine_eq_arccos]
  rw [(by ring : (0:ℝ) * Real.pi / 180 = 0), (by ring : (90:ℝ) * Real.pi / 180 = Real.pi / 2)]
  have hd : dot3 (sphVec 0 0) (sphVec 0 (Real.pi / 2)) = 0 := by
    simp [sphVec, dot3]
  rw [hd, Real.arccos_zero]

theorem hav_eq_quarter_2 : RouteAnalysisService.haversineDistance 0 90 90 90
    = 6371000 * (Real.pi / 2) := by
  rw [haversine_eq_arccos]
  rw [(by ring : (0:ℝ) * Real.pi / 180 = 0), (by ring : (90:ℝ) * Real.pi / 180 = Real.pi / 2)]
  have hd : dot3 (sphVec 0 (Real.pi / 2)) (sphVec (Real.pi / 2) (Real.pi / 2)) = 0 := by
    simp [sphVec, dot3]
  rw [hd, Real.arccos_zero]

theorem hav_eq_quarter_3 : RouteAnalysisService.haversineDistance 0 0 90 90
    = 6371000 * (Real.pi / 2) := by
  rw [haversine_eq_arccos]
  rw [(by ring : (0:ℝ) * Real.pi / 180 = 0), (by ring : (90:ℝ) * Real.pi / 180 = Real.pi / 2)]
  have hd : dot3 (sphVec 0 0) (sphVec (Real.pi / 2) (Real.pi / 2)) = 0 := by
    simp [sphVec, dot3]
  rw [hd, Real.arccos_zero]

theorem hav_eq_quarter_4 : RouteAnalysisService.haversineDistance 0 90 0 0
    = 6371000 * (Real.pi / 2) := by
  rw [haversine_eq_arccos]
  rw [(by ring : (0:ℝ) * Real.pi / 180 = 0), (by ring : (90:ℝ) * Real.pi / 180 = Real.pi / 2)]
  have hd : dot3 (sphVec 0 (Real.pi / 2)) (sphVec 0 0) = 0 := by
    simp [sphVec, dot3]
  rw [hd, Real.arccos_zero]

/-! ## Route analysis (post-trip) -/

/-- Placeholder row for `headD`/`getLastD`; irrelevant under the length
guards the code performs. -/
def defaultRow : TrackRow := { latitude := 0, longitude := 0, accuracy := none,
                               speed := none, heading := none, timestamp := 0 }

/-- Haversine distance between the coordinates of two tracking rows. -/
noncomputable def rowDistance (p q : TrackRow) : ℝ :=
  RouteAnalysisService.haversineDistance (↑p.latitude) (↑p.longitude)
    (↑q.latitude) (↑q.longitude)

/-- `RouteAnalysisService.calculateTotalDistance`: the loop
`for (i = 1; i < length; i++) total += haversine(data[i-1], data[i])`. -/
noncomputable def RouteAnalysisService.calculateTotalDistance :
    List TrackRow → ℝ
  | [] => 0
  | [_] => 0
  | p :: q :: rest => rowDistance p q
      + RouteAnalysisService.calculateTotalDistance (q :: rest)

/-- `RouteAnalysisService.calculateRouteEfficiency`: direct first-to-last
distance divided by the total travelled distance (`0` below 2 samples). -/
noncomputable def RouteAnalysisService.calculateRouteEfficiency
    (trackingData : List TrackRow) : ℝ :=
  if trackingData.length < 2 then 0
  else
    let start := trackingData.headD defaultRow
    let stop := trackingData.getLastD defaultRow
    let directDistance := rowDistance start stop
    let actualDistance := RouteAnalysisService.calculateTotalDistance trackingData
    directDistance / actualDistance

theorem totalDistance_nonneg (l : List TrackRow) :
    0 ≤ RouteAnalysisService.calculateTotalDistance l := by
  induction l with
  | nil => simp [RouteAnalysisService.calculateTotalDistance]
  | cons p rest ih =>
    cases rest with
    | nil => simp [RouteAnalysisService.calculateTotalDistance]
    | cons q t =>
      have h := haversine_nonneg (↑p.latitude) (↑p.longitude) (↑q.latitude) (↑q.longitude)
      simp only [RouteAnalysisService.calculateTotalDistance] at ih ⊢
      have : 0 ≤ rowDistance p q := h
      linarith

/-- The direct first-to-last distance never exceeds the summed segment
distances (triangle inequality on the sphere, by induction). -/
theorem direct_le_total (l : List TrackRow) (p : TrackRow) :
    rowDistance p (List.getLastD l p)
      ≤ RouteAnalysisService.calculateTotalDistance (p :: l) := by
  induction l generalizing p with
  | nil =>
    simp only [List.getLastD_nil, RouteAnalysisService.calculateTotalDistance]
    have h : rowDistance p p = 0 := haversine_self _ _
    simp [h]
  | cons q t ih =>
    have hlast : List.getLastD (q :: t) p = List.getLastD t q := List.getLastD_cons p q t
    rw [hlast]
    have htri : rowDistance p (List.getLastD t q)
        ≤ rowDistance p q + rowDistance q (List.getLastD t q) :=
      haversine_triangle _ _ _ _ _ _
    have hih := ih q
    simp only [RouteAnalysisService.calculateTotalDistance] at hih ⊢
    linarith

/-- Sample at the equator/prime-meridian intersection. -/
def rowA : TrackRow := { latitude := 0, longitude := 0, accuracy := none,
                         speed := none, heading := none, timestamp := 0 }

/-- Sample on the equator at longitude 90. -/
def rowB : TrackRow := { latitude := 0, longitude := 90, accuracy := none,
                         speed := none, heading := none, timestamp := 300000 }

/-- Sample at the pole side corner (latitude 90, longitude 90). -/
def rowC : TrackRow := { latitude := 90, longitude := 90, accuracy := none,
                         speed := none, heading := none, timestamp := 600000 }

/-- 3-point right-angle path (two perpendicular quarter-circle legs). -/
def rightAnglePath : List TrackRow := [rowA, rowB, rowC]

/-- 3-point loop path: out to longitude 90 and straight back. -/
def loopPath : List TrackRow := [rowA, rowB, rowA]

theorem rowDistance_AB : rowDistance rowA rowB = 6371000 * (Real.pi / 2) := by
  have h : rowDistance rowA rowB = RouteAnalysisService.haversineDistance 0 0 0 90 := by
    simp [rowDistance, rowA, rowB]
  rw [h, hav_eq_quarter_1]

theorem rowDistance_BC : rowDistance rowB rowC = 6371000 * (Real.pi / 2) := by
  have h : rowDistance rowB rowC = RouteAnalysisService.haversineDistance 0 90 90 90 := by
    simp [rowDistance, rowB, rowC]
  rw [h, hav_eq_quarter_2]

theorem rowDistance_AC : rowDistance rowA rowC = 6371000 * (Real.pi / 2) := by
  have h : rowDistance rowA rowC = RouteAnalysisService.haversineDistance 0 0 90 90 := by
    simp [rowDistance, rowA, rowC]
  rw [h, hav_eq_quarter_3]

theorem rowDistance_BA : rowDistance rowB rowA = 6371000 * (Real.pi / 2) := by
  have h : rowDistance rowB rowA = RouteAnalysisService.haversineDistance 0 90 0 0 := by
    simp [rowDistance, rowB, rowA]
  rw [h, hav_eq_quarter_4]

theorem rightAnglePath_efficiency :
    RouteAnalysisService.calculateRouteEfficiency rightAnglePath = 1 / 2 := by
  have htot : RouteAnalysisService.calculateTotalDistance rightAnglePath
      = 6371000 * Real.pi := by
    simp only [rightAnglePath, RouteAnalysisService.calculateTotalDistance,
      rowDistance_AB, rowDistance_BC]
    ring
  simp only [rightAnglePath] at htot
  simp only [RouteAnalysisService.calculateRouteEfficiency, rightAnglePath]
  norm_num [List.headD, List.getLastD]
  rw [rowDistance_AC, htot, div_eq_iff (by positivity : (6371000 : ℝ) * Real.pi ≠ 0)]
  ring

theorem loopPath_total : RouteAnalysisService.calculateTotalDistance loopPath
    = 6371000 * Real.pi := by
  simp only [loopPath, RouteAnalysisService.calculateTotalDistance,
    rowDistance_AB, rowDistance_BA]
  ring

/-- C6 counterexample payload: a completed 3-sample trip that returns to
its start point has route efficiency `0`, not strictly positive. -/
theorem loopPath_efficiency :
    RouteAnalysisService.calculateRouteEfficiency loopPath = 0 := by
  simp only [RouteAnalysisService.calculateRouteEfficiency, loopPath]
  norm_num [List.headD, List.getLastD]
  have h0 : rowDistance rowA rowA = 0 := haversine_self _ _
  rw [h0]
  simp

/-! ## ETA service -/

/-- `ETAService.calculateConfidence`. -/
def ETAService.calculateConfidence (dataPoints : ℕ) : String :=
  if dataPoints ≥ 20 then "high"
  else if dataPoints ≥ 10 then "medium"
  else "low"

/-- `ETAService.getTrafficFactor` (rush hour 1.5, night 0.8, normal 1.0),
selected by the local hour of day. -/
def ETAService.getTrafficFactor (hour : ℕ) : ℚ :=
  if (7 ≤ hour ∧ hour ≤ 9) ∨ (17 ≤ hour ∧ hour ≤ 19) then 3/2
  else if 22 ≤ hour ∨ hour ≤ 5 then 4/5
  else 1

/-- `ETAService.getHistoricalFactor`: the `route_history` aggregation is an
external query; its outcome is a parameter (`Except.error` models a
rejected query, which the function catches, returning `1.0`; `none`
models no rows / null average, also `1.0`; otherwise the historical
average speed divided by the default speed 10). -/
def ETAService.getHistoricalFactor (dbHist : Except Unit (Option ℚ)) : ℚ :=
  match dbHist with
  | .error _ => 1
  | .ok none => 1
  | .ok (some avgSpd) => if avgSpd = 0 then 1 else avgSpd / 10

/-- `ETAService.analyzeCurrentSpeed`: recency-weighted mean of the last 10
speeds that are `> 0 && < 50`; returns the default speed 10 when the
history is missing, shorter than 3, or no valid speed remains. -/
def ETAService.analyzeCurrentSpeed (trackingHistory : Option (List TrackRow)) : ℚ :=
  match trackingHistory with
  | none => 10
  | some hist =>
    if hist.length < 3 then 10
    else
      let validSpeeds := (takeLast 10 hist).foldr (fun t acc => match t.speed with
        | some s => if s > 0 ∧ s < 50 then s :: acc else acc
        | none => acc) []
      if validSpeeds.length = 0 then 10
      else
        let n : ℚ := validSpeeds.length
        let withIdx := validSpeeds.enum
        let weightedSum : ℚ := (withIdx.map (fun p => p.2 * (((p.1 : ℚ) + 1) / n))).sum
        let totalWeight : ℚ := (withIdx.map (fun p => ((p.1 : ℚ) + 1) / n)).sum
        weightedSum / totalWeight

/-- Result of `ETAService.calculateETA`, one constructor per return site:
the early guard returns a bare `Date` (so `.eta`/`.confidence` are
`undefined` for the caller), the normal path returns the full object, the
catch block returns `{eta, confidence}`. -/
inductive EtaRes where
  | dateOnly (eta : ℝ)
  | okRes (eta remaining_distance estimated_speed : ℝ) (confidence : String)
  | caught (eta : ℝ) (confidence : String)

/-- The caller-visible `etaData.eta` field. -/
def EtaRes.etaField : EtaRes → Option ℝ
  | .dateOnly _ => none
  | .okRes e _ _ _ => some e
  | .caught e _ => some e

/-- The caller-visible `etaData.confidence` field. -/
def EtaRes.confidenceField : EtaRes → Option String
  | .dateOnly _ => none
  | .okRes _ _ _ c => some c
  | .caught _ c => some c

/-- Body of the `try` block of `ETAService.calculateETA`.  The only
reachable throw with in-range arguments is the `trackingHistory.length`
access in the `calculateConfidence` call when the history argument is
`null`/`undefined` (the guard only checks `shipment` and
`currentLocation`); `getHistoricalFactor` catches its own query errors. -/
noncomputable def ETAService.calculateETABody (shipment : Option Shipment)
    (currentLocation : Option (ℚ × ℚ)) (trackingHistory : Option (List TrackRow))
    (now : ℚ) (hour : ℕ) (dbHist : Except Unit (Option ℚ)) : Except Unit EtaRes :=
  match shipment, currentLocation with
  | none, _ => .ok (.dateOnly ((now : ℝ) + 2 * 60 * 60 * 1000))
  | _, none => .ok (.dateOnly ((now : ℝ) + 2 * 60 * 60 * 1000))
  | some sh, some cur =>
    match trackingHistory with
    | none => .error ()
    | some hist =>
      let remainingDistance := ETAService.haversineDistance (↑cur.1) (↑cur.2)
        (↑sh.destination_latitude) (↑sh.destination_longitude)
      let avgSpeed := ETAService.analyzeCurrentSpeed (some hist)
      let trafficFactor := ETAService.getTrafficFactor hour
      let historicalFactor := ETAService.getHistoricalFactor dbHist
      let adjustedSpeed := avgSpeed * trafficFactor * historicalFactor
      let estimatedTime := remainingDistance / (↑(jsOrQ adjustedSpeed 10) : ℝ)
      .ok (.okRes ((now : ℝ) + estimatedTime * 1000) remainingDistance
        (↑adjustedSpeed) (ETAService.calculateConfidence hist.length))

/-- `ETAService.calculateETA`: the `try`/`catch` wrapper — any internal
error is replaced by the fixed fallback `{eta: now + 2h, confidence:
low}`. -/
noncomputable def ETAService.calculateETA (shipment : Option Shipment)
    (currentLocation : Option (ℚ × ℚ)) (trackingHistory : Option (List TrackRow))
    (now : ℚ) (hour : ℕ) (dbHist : Except Unit (Option ℚ)) : EtaRes :=
  match ETAService.calculateETABody shipment currentLocation trackingHistory now hour dbHist with
  | .ok r => r
  | .error _ => .caught ((now : ℝ) + 2 * 60 * 60 * 1000) "low"

/-! ## Recommendation engine: remaining analyzers -/

/-- `RecommendationService.calculateDynamicETA`: unweighted mean of the
last 10 positive speeds (fallback 10), haversine remaining distance from
the last history row to the shipment destination. -/
noncomputable def RecommendationService.calculateDynamicETA
    (shipment : Option Shipment) (trackingHistory : List TrackRow) (now : ℚ) : ℝ :=
  match shipment with
  | none => (now : ℝ) + 2 * 60 * 60 * 1000
  | some sh =>
    if trackingHistory.length < 5 then (now : ℝ) + 2 * 60 * 60 * 1000
    else
      let recentSpeeds := positiveSpeeds (takeLast 10 trackingHistory)
      let avgSpeed : ℚ := recentSpeeds.sum / recentSpeeds.length
      let currentLocation := trackingHistory.getLastD defaultRow
      let remainingDistance := RecommendationService.haversineDistance
        (↑currentLocation.latitude) (↑currentLocation.longitude)
        (↑sh.destination_latitude) (↑sh.destination_longitude)
      let estimatedTime := remainingDistance / (↑(jsOrQ avgSpeed 10) : ℝ)
      (now : ℝ) + estimatedTime * 1000

/-- `RecommendationService.analyzeDelayProbability`: recomputes an ETA via
`calculateDynamicETA` and compares to the planned delivery time; delay
over 30 minutes fires a `delay_alert`, high severity over 60 minutes. -/
noncomputable def RecommendationService.analyzeDelayProbability
    (shipment : Option Shipment) (trackingHistory : List TrackRow) (now : ℚ) :
    Option Advisory :=
  match shipment with
  | none => none
  | some sh =>
    if trackingHistory.length < 5 then none
    else
      let eta := RecommendationService.calculateDynamicETA (some sh) trackingHistory now
      let delayMinutes := (eta - sh.planned_delivery_time) / (1000 * 60)
      if delayMinutes > 30 then
        some { type := "delay_alert",
               severity := if delayMinutes > 60 then "high" else "medium" }
      else none

/-- `RecommendationService.calculateDeviation`: absolute difference of the
current-to-destination and start-to-destination haversine distances.  The
destination coordinates are passed through as a parameter (the source
duck-types `destination.latitude || destination.lat` off the value it was
handed). -/
noncomputable def RecommendationService.calculateDeviation (start : TrackRow)
    (destParsed : ℝ × ℝ) (current : TrackRow) : ℝ :=
  let distanceToDest := RecommendationService.haversineDistance
    (↑current.latitude) (↑current.longitude) destParsed.1 destParsed.2
  let totalDistance := RecommendationService.haversineDistance
    (↑start.latitude) (↑start.longitude) destParsed.1 destParsed.2
  |totalDistance - distanceToDest|

/-- `RecommendationService.analyzeRouteDeviation`: deviation above 1000
fires a `route_change` advisory, high severity above 5000. -/
noncomputable def RecommendationService.analyzeRouteDeviation
    (shipment : Option Shipment) (currentLocation : Option TrackRow)
    (trackingHistory : List TrackRow) (destParsed : ℝ × ℝ) : Option Advisory :=
  match shipment, currentLocation with
  | none, _ => none
  | _, none => none
  | some _, some cur =>
    if trackingHistory.length < 2 then none
    else
      let startLocation := trackingHistory.headD defaultRow
      let deviation := RecommendationService.calculateDeviation startLocation destParsed cur
      if deviation > 1000 then
        some { type := "route_change",
               severity := if deviation > 5000 then "high" else "medium" }
      else none

/-- `RecommendationService.analyzeTrackingData`: fetches shipment and
history (an external call whose outcome — including the thrown
`TypeError` from the unresolved controller imports — is the `fetch`
parameter), runs the five analyzers, collects their firings; the
`catch` returns the empty list. -/
noncomputable def RecommendationService.analyzeTrackingData
    (fetch : Except Unit (Option Shipment × List TrackRow))
    (locationData : TrackRow) (now : ℚ) (destParsed : ℝ × ℝ) : List Advisory :=
  match fetch with
  | .error _ => []
  | .ok (shipment, trackingHistory) =>
    let r1 := RecommendationService.analyzeRouteDeviation shipment (some locationData)
      trackingHistory destParsed
    let r2 := RecommendationService.analyzeDelayProbability shipment trackingHistory now
    let r3 := RecommendationService.analyzeSpeedPatterns locationData trackingHistory
    let r4 := RecommendationService.analyzeIdleTime locationData trackingHistory now
    let r5 := RecommendationService.analyzeGPSAccuracy locationData
    r1.toList ++ r2.toList ++ r3.toList ++ r4.toList ++ r5.toList

/-! ## Smart tracking controller and its route validation -/

/-- Request body of a location update (JSON numeric fields, absent =
`none`). -/
structure SmartBody where
  shipment_id : Option ℚ
  latitude : Option ℚ
  longitude : Option ℚ
  accuracy : Option ℚ
  speed : Option ℚ
  heading : Option ℚ
  timestamp : Option ℚ
deriving DecidableEq, Repr

/-- The tracking row a body produces when inserted. -/
def rowOfBody (b : SmartBody) : TrackRow :=
  { latitude := b.latitude.getD 0, longitude := b.longitude.getD 0,
    accuracy := b.accuracy, speed := b.speed, heading := b.heading,
    timestamp := b.timestamp.getD 0 }

/-- express-validator `isInt({min})`. -/
def isIntMin (v : Option ℚ) (m : ℚ) : Bool :=
  match v with
  | some q => q.den == 1 && q ≥ m
  | none => false

/-- express-validator `isFloat({min, max})` on a required field. -/
def isFloatRange (v : Option ℚ) (lo hi : ℚ) : Bool :=
  match v with
  | some q => decide (lo ≤ q ∧ q ≤ hi)
  | none => false

/-- express-validator `optional().isFloat({min, max})`. -/
def optFloatRange (v : Option ℚ) (lo hi : ℚ) : Bool :=
  match v with
  | some q => decide (lo ≤ q ∧ q ≤ hi)
  | none => true

/-- express-validator `optional().isFloat({min})` (no upper bound). -/
def optFloatMin (v : Option ℚ) (lo : ℚ) : Bool :=
  match v with
  | some q => decide (lo ≤ q)
  | none => true

/-- The validation chain of `POST /smart/location/update`
(`smartTrackingRoutes`): shipment_id positive integer, latitude in
[-90,90], longitude in [-180,180], accuracy optional with only `min: 0`,
speed optional in [0,200], heading optional in [0,360]. -/
def smartValidationErrors (b : SmartBody) : List String :=
  (if isIntMin b.shipment_id 1 then [] else ["shipment_id"]) ++
  (if isFloatRange b.latitude (-90) 90 then [] else ["latitude"]) ++
  (if isFloatRange b.longitude (-180) 180 then [] else ["longitude"]) ++
  (if optFloatMin b.accuracy 0 then [] else ["accuracy"]) ++
  (if optFloatRange b.speed 0 200 then [] else ["speed"]) ++
  (if optFloatRange b.heading 0 360 then [] else ["heading"])

/-- External-world outcomes consumed by one smart `updateLocation` call:
the shipment lookup store, the history query rows, the
recommendation-engine fetch outcome, the historical-speed query, clock
and local hour, and the duck-typed destination parse. -/
structure SmartCtx where
  shipments : List Shipment
  historyRows : List TrackRow
  recFetch : Except Unit (Option Shipment × List TrackRow)
  dbHist : Except Unit (Option ℚ)
  now : ℚ
  hour : ℕ
  destParsed : ℝ × ℝ

/-- Outcome of the smart handler's `INSERT INTO tracking_locations`: the
statement lists 7 columns but supplies only 6 placeholders, and names
`heading` and `timestamp` columns that the `tracking_locations` table
(`TrackingLocationModel.createTable`) does not have, so the store rejects
it on every execution. -/
def smartInsertResult : Except Unit ℕ := .error ()

/-- Outcome of the smart handler's `UPDATE shipments`: it writes
`current_latitude`/`current_longitude` columns that the `shipments`
table (`ShipmentModel.createTable`, including the migration ALTER) does
not have, so the store rejects it on every execution; it sits behind the
always-failing insert. -/
def smartUpdateResult : Except Unit Unit := .error ()

/-- Response of the smart update path (one constructor per `res` call;
socket emissions carry no response data and are omitted). -/
inductive SmartOutcome where
  | validationFailed
  | missingFields
  | notFound
  | serverError
  | success (location_id : ℕ) (eta : Option ℝ) (confidence : Option String)
      (recommendations : List Advisory) (risk_score : ℕ)

/-- `smartTrackingController.updateLocation` (body of the handler):
truthiness check on the three required fields, shipment lookup, insert,
analytics, shipment update, response.  Returns the response together with
the list of tracking rows the call persisted. -/
noncomputable def smartTrackingController.updateLocation (ctx : SmartCtx)
    (b : SmartBody) : SmartOutcome × List TrackRow :=
  if ¬(jsTruthy b.shipment_id ∧ jsTruthy b.latitude ∧ jsTruthy b.longitude) then
    (.missingFields, [])
  else
    match ctx.shipments.find? (fun s => b.shipment_id == some (s.id : ℚ)) with
    | none => (.notFound, [])
    | some shipment =>
      match smartInsertResult with
      | .error _ => (.serverError, [])
      | .ok newId =>
        let persisted := [rowOfBody b]
        let recommendations := RecommendationService.analyzeTrackingData ctx.recFetch
          (rowOfBody b) ctx.now ctx.destParsed
        let etaData := ETAService.calculateETA (some shipment)
          (some (b.latitude.getD 0, b.longitude.getD 0)) (some ctx.historyRows)
          ctx.now ctx.hour ctx.dbHist
        match smartUpdateResult with
        | .error _ => (.serverError, persisted)
        | .ok _ =>
          (.success newId etaData.etaField etaData.confidenceField recommendations
            (calculateRiskScore recommendations), persisted)

/-- The smart route: validation middleware, then the controller. -/
noncomputable def smartRoute (ctx : SmartCtx) (b : SmartBody) :
    SmartOutcome × List TrackRow :=
  if smartValidationErrors b ≠ [] then (.validationFailed, [])
  else smartTrackingController.updateLocation ctx b

/-! ## Classic tracking route: schema validation and controller -/

/-- `middleware/validator.js` applied to `updateLocationSchema`
(`shipmentValidators`): shipment_id required number min 1, latitude
required in [-90,90], longitude required in [-180,180], accuracy optional
in [0,1000], speed optional in [0,500]. -/
def classicValidationErrors (b : SmartBody) : List String :=
  (match b.shipment_id with
   | none => ["body.shipment_id is required"]
   | some q => if q < 1 then ["body.shipment_id must be at least 1"] else []) ++
  (match b.latitude with
   | none => ["body.latitude is required"]
   | some q => (if q < -90 then ["body.latitude must be at least -90"] else []) ++
       (if q > 90 then ["body.latitude must be at most 90"] else [])) ++
  (match b.longitude with
   | none => ["body.longitude is required"]
   | some q => (if q < -180 then ["body.longitude must be at least -180"] else []) ++
       (if q > 180 then ["body.longitude must be at most 180"] else [])) ++
  (match b.accuracy with
   | none => []
   | some q => (if q < 0 then ["body.accuracy must be at least 0"] else []) ++
       (if q > 1000 then ["body.accuracy must be at most 1000"] else [])) ++
  (match b.speed with
   | none => []
   | some q => (if q < 0 then ["body.speed must be at least 0"] else []) ++
       (if q > 500 then ["body.speed must be at most 500"] else []))

/-- The authenticated caller identity. -/
structure SUser where
  id : ℕ
  role : String
  organizationId : Option ℕ
deriving DecidableEq, Repr

/-- JavaScript truthiness of an optional id. -/
def orgTruthy : Option ℕ → Bool
  | none => false
  | some n => n != 0

/-- `TrackingLocationModel.isValidLatitude`. -/
def TrackingLocationModel.isValidLatitude (lat : ℚ) : Bool :=
  decide (-90 ≤ lat ∧ lat ≤ 90)

/-- `TrackingLocationModel.isValidLongitude`. -/
def TrackingLocationModel.isValidLongitude (lng : ℚ) : Bool :=
  decide (-180 ≤ lng ∧ lng ≤ 180)

/-- `TrackingLocationModel.create`: re-validates the coordinates and
throws `INVALID_COORDINATES` before inserting. -/
def TrackingLocationModel.create (locationData : TrackRow) : Except String TrackRow :=
  if ¬(TrackingLocationModel.isValidLatitude locationData.latitude
      ∧ TrackingLocationModel.isValidLongitude locationData.longitude) then
    .error "INVALID_COORDINATES"
  else .ok locationData

/-- Response of the classic update path (the pending→in_transit /
broadcast behaviour of this handler is modelled by the ingest state
machine below). -/
inductive ClassicOutcome where
  | validationFailed (errors : List String)
  | notFoundResp
  | accessDenied
  | invalidCoordinates
  | created (location : TrackRow)
deriving DecidableEq, Repr

/-- `trackingController.updateLocation` (validation-and-persistence
behaviour): shipment lookup, courier/organization authorization,
`TrackingLocationModel.create`.  Returns the response alongside the rows
persisted by the call. -/
def trackingController.updateLocation (shipments : List Shipment) (user : SUser)
    (b : SmartBody) : ClassicOutcome × List TrackRow :=
  match shipments.find? (fun s => b.shipment_id == some (s.id : ℚ)) with
  | none => (.notFoundResp, [])
  | some shipment =>
    if user.role = "driver" ∧ shipment.driver_id ≠ user.id then (.accessDenied, [])
    else if user.role = "admin" ∧ orgTruthy user.organizationId
        ∧ orgTruthy shipment.organization_id
        ∧ shipment.organization_id ≠ user.organizationId then (.accessDenied, [])
    else
      match TrackingLocationModel.create (rowOfBody b) with
      | .error _ => (.invalidCoordinates, [])
      | .ok loc => (.created loc, [loc])

/-- The classic route `POST /tracking/update`: schema validation
middleware, then the handler. -/
def classicRoute (shipments : List Shipment) (user : SUser) (b : SmartBody) :
    ClassicOutcome × List TrackRow :=
  if classicValidationErrors b ≠ [] then
    (.validationFailed (classicValidationErrors b), [])
  else trackingController.updateLocation shipments user b

/-! ## First-sample transition: ingest state machine -/

/-- Shipment status enumeration. -/
inductive IStatus where
  | pending
  | in_transit
  | delivered
  | cancelled
deriving DecidableEq, Repr

/-- Store-side state of one shipment: its status, the ids of its tracking
rows in insertion order, and counters for the observable effects
(status-change transitions and `status_update` broadcasts). -/
structure IngestState where
  status : IStatus
  nextId : ℕ
  rows : List ℕ
  statusBroadcasts : ℕ
  transitions : ℕ
deriving DecidableEq, Repr

/-- Initial state of a fresh shipment. -/
def initIngest : IngestState :=
  { status := .pending, nextId := 0, rows := [], statusBroadcasts := 0,
    transitions := 0 }

/-- One non-interleaved run of `trackingController.updateLocation`'s
first-sample logic: read the shipment status, insert the row, re-read the
latest row (`getLatestByShipment`) and compare ids, and conditionally
transition and broadcast. -/
def seqIngest (s : IngestState) : IngestState :=
  let snapshotStatus := s.status
  let newId := s.nextId
  let rows := s.rows ++ [newId]
  let isFirstUpdate := rows.getLast? = some newId
  if isFirstUpdate ∧ snapshotStatus = .pending then
    { status := .in_transit, nextId := newId + 1, rows := rows,
      statusBroadcasts := s.statusBroadcasts + 1,
      transitions := s.transitions + (if s.status = .pending then 1 else 0) }
  else
    { status := s.status, nextId := newId + 1, rows := rows,
      statusBroadcasts := s.statusBroadcasts, transitions := s.transitions }

/-- Thread-local state of one in-flight ingest request: its program
counter, the shipment-status snapshot it read at the start of the
handler, and the id of the row it inserted. -/
structure ThreadState where
  pc : ℕ
  snapshotStatus : Option IStatus
  myId : Option ℕ
deriving DecidableEq, Repr

/-- A fresh request. -/
def initThread : ThreadState := { pc := 0, snapshotStatus := none, myId := none }

/-- One atomic step of an in-flight request against the shared store:
step 0 reads the shipment status, step 1 inserts the row, step 2 re-reads
the latest row, compares ids and conditionally transitions/broadcasts
(grouping the re-read and the conditional update into one step only makes
the handler more atomic than the source, which performs them as separate
awaited queries). -/
def stepThread (g : IngestState) (t : ThreadState) : IngestState × ThreadState :=
  match t.pc with
  | 0 => (g, { t with pc := 1, snapshotStatus := some g.status })
  | 1 => ({ g with rows := g.rows ++ [g.nextId], nextId := g.nextId + 1 },
          { t with pc := 2, myId := some g.nextId })
  | 2 =>
    let isFirstUpdate := g.rows.getLast? = t.myId
    if isFirstUpdate ∧ t.snapshotStatus = some .pending then
      ({ g with status := .in_transit,
                statusBroadcasts := g.statusBroadcasts + 1,
                transitions := g.transitions + (if g.status = .pending then 1 else 0) },
       { t with pc := 3 })
    else (g, { t with pc := 3 })
  | _ => (g, t)

/-- Two concurrent ingest requests A and B with a schedule: `true` steps
A, `false` steps B. -/
def racyRun : List Bool → IngestState × ThreadState × ThreadState →
    IngestState × ThreadState × ThreadState
  | [], s => s
  | c :: rest, (g, tA, tB) =>
    if c then
      let (g2, tA2) := stepThread g tA
      racyRun rest (g2, tA2, tB)
    else
      let (g2, tB2) := stepThread g tB
      racyRun rest (g2, tA, tB2)

/-! ## Broadcast hub (socket handler) -/

/-- `ShipmentModel.findById(id, userRole, userId)`: selects the shipment
row with the given id (`WHERE s.id = ?`); when the caller role is
`driver` the query additionally requires `s.driver_id = ?`; returns the
first match or null (`LIMIT 1`). -/
def ShipmentModel.findById (store : List Shipment) (sid : ℕ) (userRole : String)
    (userId : ℕ) : Option Shipment :=
  let shipments := if userRole = "driver" then
      store.filter (fun s => s.id = sid ∧ s.driver_id = userId)
    else
      store.filter (fun s => s.id = sid)
  shipments.head?

/-- Reply emitted to the socket by `handleJoinShipment`. -/
inductive JoinReply where
  | errorMsg (message : String)
  | joined (shipment_id : ℕ)
deriving DecidableEq, Repr

/-- `SocketHandler.handleJoinShipment`: validates the id, re-authorizes
via `ShipmentModel.findById` and the admin organization rule, and only on
success joins the `shipment_<id>` room.  `rooms` is the socket.io
membership table as (connection, shipment) pairs. -/
def SocketHandler.handleJoinShipment (rooms : List (ℕ × ℕ))
    (shipments : List Shipment) (user : SUser) (connId : ℕ)
    (dataShipmentId : Option ℕ) : List (ℕ × ℕ) × JoinReply :=
  match dataShipmentId with
  | none => (rooms, .errorMsg "Invalid shipment_id")
  | some sid =>
    if sid = 0 then (rooms, .errorMsg "Invalid shipment_id")
    else
      match ShipmentModel.findById shipments sid user.role user.id with
      | none => (rooms, .errorMsg "Shipment not found")
      | some shipment =>
        if user.role = "admin" ∧ orgTruthy user.organizationId
            ∧ orgTruthy shipment.organization_id
            ∧ shipment.organization_id ≠ user.organizationId then
          (rooms, .errorMsg "Access denied to this shipment")
        else ((connId, sid) :: rooms, .joined sid)

/-- `io.to('shipment_<id>')`: the connections a publish for a shipment is
delivered to. -/
def roomMembers (rooms : List (ℕ × ℕ)) (sid : ℕ) : List ℕ :=
  (rooms.filter (fun m => m.2 = sid)).map (fun m => m.1)

/-- `SocketHandler.emitLocationUpdate`: fan-out of a location update to
the current members of the shipment room. -/
def SocketHandler.emitLocationUpdate (rooms : List (ℕ × ℕ)) (sid : ℕ) : List ℕ :=
  roomMembers rooms sid

/-! ## Claim theorems -/

theorem riskScore_foldl (l : List Advisory) (init : ℕ) :
    l.foldl (fun acc rec =>
        if rec.severity = "high" then acc + 30
        else if rec.severity = "medium" then acc + 15
        else if rec.severity = "low" then acc + 5
        else acc) init
      = init + (l.map (fun r => severityWeight r.severity)).sum := by
  induction l generalizing init with
  | nil => simp
  | cons r t ih =>
    simp only [List.foldl_cons, List.map_cons, List.sum_cons, ih, severityWeight]
    split_ifs <;> omega

/-- C4: for every advisory set of a single ingestion event the risk score
equals `min(100, Σ severity weight)` with weights low=5, medium=15,
high=30; the empty set gives 0; and the score always lies in [0,100].
The score is a pure function of the event's advisory list, so nothing is
accumulated across events. -/
theorem c4_riskScore_bounded_sum (recommendations : List Advisory) :
    calculateRiskScore recommendations = specRiskScore recommendations
      ∧ calculateRiskScore [] = 0
      ∧ 0 ≤ calculateRiskScore recommendations
      ∧ calculateRiskScore recommendations ≤ 100 := by
  have heq : calculateRiskScore recommendations = specRiskScore recommendations := by
    unfold calculateRiskScore specRiskScore
    rcases recommendations with _ | ⟨r, t⟩
    · simp
    · rw [if_neg (by simp)]
      rw [riskScore_foldl]
      simp [Nat.min_comm]
  refine ⟨heq, rfl, Nat.zero_le _, ?_⟩
  rw [heq]
  unfold specRiskScore
  exact Nat.min_le_left _ _

/-- C10: on the smart ingestion path the required-field check tests
latitude/longitude by truthiness, so any body that passes the route
validation but has latitude = 0 or longitude = 0 (equator / prime
meridian) is rejected as missing required fields, and nothing is
persisted. -/
theorem c10_zero_coordinate_rejected (ctx : SmartCtx) (b : SmartBody)
    (hvalid : smartValidationErrors b = [])
    (hzero : b.latitude = some 0 ∨ b.longitude = some 0) :
    smartRoute ctx b = (.missingFields, []) := by
  unfold smartRoute
  rw [if_neg (by simp [hvalid])]
  unfold smartTrackingController.updateLocation
  rw [if_pos]
  rcases hzero with h | h <;> simp [jsTruthy, h]

/-- Witness for C10: the concrete in-range body
`{shipment_id: 1, latitude: 0, longitude: 77}` passes route validation
yet is rejected as missing required fields with nothing persisted. -/
theorem c10_witness :
    smartValidationErrors
        { shipment_id := some 1, latitude := some 0, longitude := some 77,
          accuracy := none, speed := none, heading := none, timestamp := none } = []
      ∧ smartRoute
          { shipments := [], historyRows := [],
            recFetch := .error (), dbHist := .ok none,
            now := 0, hour := 12, destParsed := (0, 0) }
          { shipment_id := some 1, latitude := some 0, longitude := some 77,
            accuracy := none, speed := none, heading := none, timestamp := none }
        = (.missingFields, []) := by
  refine ⟨by decide, ?_⟩
  exact c10_zero_coordinate_rejected _ _ (by decide) (Or.inl rfl)

/-- A zero-speed sample at a given timestamp. -/
def idleRow (ts : ℚ) : TrackRow :=
  { latitude := 10, longitude := 10, accuracy := none, speed := some 0,
    heading := none, timestamp := ts }

/-- A speed-8 (moving) sample. -/
def moveRow : TrackRow :=
  { latitude := 10, longitude := 10, accuracy := none, speed := some 8,
    heading := none, timestamp := 540000 }

/-- Four zero-speed samples, all inside the trailing 10-minute window of
`now = 600000`. -/
def idleHist4 : List TrackRow :=
  [idleRow 60000, idleRow 180000, idleRow 300000, idleRow 420000]

/-- Five zero-speed samples, all inside the trailing 10-minute window of
`now = 600000`. -/
def idleHist5 : List TrackRow :=
  idleRow 540000 :: idleHist4

/-- C8 counterexample: a tracking history whose trailing 10-minute window
is nonempty (4 samples) and entirely below the movement threshold, on
which the idle analyzer nevertheless fires nothing — the code also
requires at least 5 history rows, which this 4-row history fails. -/
theorem c8_counterexample :
    RecommendationService.analyzeIdleTime (idleRow 600000) idleHist4 600000 = none
      ∧ (idleHist4.filter (fun t => t.timestamp > 600000 - 10 * 60 * 1000)).length = 4
      ∧ ∀ t ∈ idleHist4, ¬ optGt t.speed 5 := by
  refine ⟨?_, ?_, ?_⟩
  · unfold RecommendationService.analyzeIdleTime
    rw [if_pos (by norm_num [idleHist4])]
  · norm_num [idleHist4, idleRow]
  · norm_num [idleHist4, idleRow, optGt]

/-- C8 (amended): with at least 5 history rows, a nonempty trailing
10-minute window none of whose samples has speed above 5 fires exactly
one medium `idle_alert`; a window sample with speed above the threshold
suppresses the alert. -/
theorem c8_idle_alert (currentLocation : TrackRow) (trackingHistory : List TrackRow)
    (now : ℚ) (h5 : 5 ≤ trackingHistory.length) :
    ((trackingHistory.filter (fun t => t.timestamp > now - 10 * 60 * 1000)) ≠ [] →
      (∀ t ∈ trackingHistory.filter (fun t => t.timestamp > now - 10 * 60 * 1000),
        ¬ optGt t.speed 5) →
      RecommendationService.analyzeIdleTime currentLocation trackingHistory now
        = some { type := "idle_alert", severity := "medium" })
    ∧ ((∃ t ∈ trackingHistory.filter (fun t => t.timestamp > now - 10 * 60 * 1000),
        optGt t.speed 5) →
      RecommendationService.analyzeIdleTime currentLocation trackingHistory now = none) := by
  unfold RecommendationService.analyzeIdleTime
  rw [if_neg (by omega)]
  constructor
  · intro hne hall
    have hany : (trackingHistory.filter
        (fun t => t.timestamp > now - 10 * 60 * 1000)).any
          (fun t => optGt t.speed 5) = false := by
      rw [List.any_eq_false]
      intro t ht
      simpa using hall t ht
    simp [hany, List.length_pos.mpr hne]
  · rintro ⟨t, ht, hgt⟩
    have hany : (trackingHistory.filter
        (fun t => t.timestamp > now - 10 * 60 * 1000)).any
          (fun t => optGt t.speed 5) = true := by
      rw [List.any_eq_true]
      exact ⟨t, ht, hgt⟩
    simp [hany]

/-- Witness for C8: five in-window zero-speed samples fire the idle
alert; replacing one of them with a speed-8 sample suppresses it. -/
theorem c8_witness :
    RecommendationService.analyzeIdleTime (idleRow 600000) idleHist5 600000
        = some { type := "idle_alert", severity := "medium" }
      ∧ RecommendationService.analyzeIdleTime (idleRow 600000)
          (moveRow :: idleHist4) 600000 = none := by
  constructor
  · exact (c8_idle_alert (idleRow 600000) idleHist5 600000
      (by norm_num [idleHist5, idleHist4])).1
      (by norm_num [idleHist5, idleHist4, idleRow]; simp)
      (by norm_num [idleHist5, idleHist4, idleRow, optGt])
  · exact (c8_idle_alert (idleRow 600000) (moveRow :: idleHist4) 600000
      (by norm_num [idleHist4])).2
      ⟨moveRow, by norm_num [moveRow, idleHist4, idleRow], by norm_num [moveRow, optGt]⟩

/-- C1 counterexample: the first-sample check is read-then-write (insert,
re-read the latest row, compare ids), so the interleaving
A-read, B-read, A-insert, A-check, B-insert, B-check of two concurrent
first-sample submissions emits the `status_update` broadcast twice. -/
theorem c1_counterexample :
    (racyRun [true, false, true, true, false, false]
        (initIngest, initThread, initThread)).1.statusBroadcasts = 2 := by
  decide

theorem seqIngest_stable (s : IngestState) (h : s.status = .in_transit) :
    seqIngest s = { s with nextId := s.nextId + 1, rows := s.rows ++ [s.nextId] } := by
  unfold seqIngest
  rw [if_neg]
  rintro ⟨_, hpend⟩
  rw [h] at hpend
  exact absurd hpend (by decide)

theorem seqIngest_iterate_stable (m : ℕ) (s : IngestState)
    (h : s.status = .in_transit) :
    (seqIngest^[m] s).status = .in_transit
      ∧ (seqIngest^[m] s).transitions = s.transitions
      ∧ (seqIngest^[m] s).statusBroadcasts = s.statusBroadcasts := by
  induction m generalizing s with
  | zero => simp [Function.iterate_zero_apply, h]
  | succ k ih =>
    rw [Function.iterate_succ_apply, seqIngest_stable s h]
    have hres := ih { s with nextId := s.nextId + 1, rows := s.rows ++ [s.nextId] }
      (by simpa using h)
    simpa using hres

/-- C1 (amended): under sequential (non-interleaved) execution, any
number n ≥ 1 of ingest operations for a pending shipment produces exactly
one pending→in_transit transition and exactly one `status_update`
broadcast — the first call fires them, later calls see a non-pending
status snapshot and skip the conditional. -/
theorem c1_single_transition_sequential (n : ℕ) (h : 1 ≤ n) :
    (seqIngest^[n] initIngest).transitions = 1
      ∧ (seqIngest^[n] initIngest).statusBroadcasts = 1 := by
  obtain ⟨m, rfl⟩ : ∃ m, n = m + 1 := ⟨n - 1, by omega⟩
  rw [Function.iterate_add_apply seqIngest m 1 initIngest]
  have hfirst : seqIngest^[1] initIngest
      = { status := .in_transit, nextId := 1, rows := [0],
          statusBroadcasts := 1, transitions := 1 } := by decide
  rw [hfirst]
  have := seqIngest_iterate_stable m
    { status := .in_transit, nextId := 1, rows := [0],
      statusBroadcasts := 1, transitions := 1 } rfl
  exact ⟨this.2.1, this.2.2⟩

/-- Witness for C1 (amended): two sequential ingests yield exactly one
transition and one broadcast. -/
theorem c1_witness :
    (seqIngest^[2] initIngest).transitions = 1
      ∧ (seqIngest^[2] initIngest).statusBroadcasts = 1 :=
  c1_single_transition_sequential 2 (by decide)

theorem roomMembers_mem (rooms : List (ℕ × ℕ)) (sid connId : ℕ) :
    connId ∈ roomMembers rooms sid ↔ (connId, sid) ∈ rooms := by
  unfold roomMembers
  simp only [List.mem_map, List.mem_filter]
  constructor
  · rintro ⟨⟨c, s⟩, ⟨hm, hs⟩, hc⟩
    simp only [decide_eq_true_eq] at hs
    subst hc
    subst hs
    exact hm
  · intro hm
    exact ⟨(connId, sid), ⟨hm, by simp⟩, rfl⟩

/-- C9: when re-authorization at subscribe time fails — unknown shipment
(or a driver who is not the assigned courier, which the role-aware lookup
reports as not found), or an administrator of a different organization —
`handleJoinShipment` emits an explicit error, adds no membership, and a
subsequent `emitLocationUpdate` publish for that shipment is not
delivered to the connection. -/
theorem c9_failed_subscribe_leaves_unsubscribed (rooms : List (ℕ × ℕ))
    (shipments : List Shipment) (user : SUser) (connId : ℕ) (sid : ℕ)
    (hnotmem : (connId, sid) ∉ rooms)
    (hfail : ShipmentModel.findById shipments sid user.role user.id = none
      ∨ (∃ sh, ShipmentModel.findById shipments sid user.role user.id = some sh
          ∧ user.role = "admin" ∧ orgTruthy user.organizationId
          ∧ orgTruthy sh.organization_id
          ∧ sh.organization_id ≠ user.organizationId)) :
    (SocketHandler.handleJoinShipment rooms shipments user connId (some sid)).1 = rooms
      ∧ (∃ m, (SocketHandler.handleJoinShipment rooms shipments user connId
          (some sid)).2 = .errorMsg m)
      ∧ connId ∉ SocketHandler.emitLocationUpdate
          (SocketHandler.handleJoinShipment rooms shipments user connId (some sid)).1
          sid := by
  have hout : (SocketHandler.handleJoinShipment rooms shipments user connId (some sid)).1
        = rooms
      ∧ ∃ m, (SocketHandler.handleJoinShipment rooms shipments user connId
          (some sid)).2 = .errorMsg m := by
    simp only [SocketHandler.handleJoinShipment]
    by_cases hz : sid = 0
    · simp [hz]
    · rw [if_neg hz]
      rcases hfail with hnone | ⟨sh, hsome, hadmin, huorg, hsorg, hneq⟩
      · rw [hnone]
        exact ⟨rfl, _, rfl⟩
      · rw [hsome]
        dsimp only
        rw [if_pos ⟨hadmin, huorg, hsorg, hneq⟩]
        exact ⟨rfl, _, rfl⟩
  refine ⟨hout.1, hout.2, ?_⟩
  rw [hout.1, SocketHandler.emitLocationUpdate, roomMembers_mem]
  exact hnotmem

/-- A driver identity used by the C9 witness. -/
def driverUser : SUser := { id := 3, role := "driver", organizationId := none }

/-- Witness for C9: a driver subscribing to an unknown shipment on an
empty store is denied and receives no subsequent location updates. -/
theorem c9_witness :
    (SocketHandler.handleJoinShipment [] [] driverUser 1 (some 5)).1 = []
      ∧ (∃ m, (SocketHandler.handleJoinShipment [] [] driverUser 1
          (some 5)).2 = .errorMsg m)
      ∧ 1 ∉ SocketHandler.emitLocationUpdate
          (SocketHandler.handleJoinShipment [] [] driverUser 1 (some 5)).1 5 :=
  c9_failed_subscribe_leaves_unsubscribed [] [] driverUser 1 5 (by simp) (Or.inl rfl)

/-- The advisory type enumeration as the spec writes it. -/
def specAdvisoryTypes : List String :=
  ["route_deviation", "delay_alert", "speed_pattern", "idle_alert", "gps_warning"]

/-- The advisory type strings the code actually produces. -/
def codeAdvisoryTypes : List String :=
  ["route_change", "delay_alert", "performance", "idle_alert", "gps_warning"]

/-- The severity enumeration. -/
def severityValues : List String := ["low", "medium", "high"]

/-- A row with speed 10 inside a long history. -/
def cruiseRow (ts : ℚ) : TrackRow :=
  { latitude := 10, longitude := 10, accuracy := none, speed := some 10,
    heading := none, timestamp := ts }

/-- Ten speed-10 samples. -/
def speedHist10 : List TrackRow :=
  [cruiseRow 0, cruiseRow 1, cruiseRow 2, cruiseRow 3, cruiseRow 4,
   cruiseRow 5, cruiseRow 6, cruiseRow 7, cruiseRow 8, cruiseRow 9]

/-- A current sample crawling at speed 1. -/
def slowRow : TrackRow :=
  { latitude := 10, longitude := 10, accuracy := none, speed := some 1,
    heading := none, timestamp := 10 }

/-- C7 counterexample: the speed-pattern analyzer fires an advisory whose
type is `performance`, which is not in the spec's enumeration (and the
route-deviation analyzer's type is `route_change`, also absent). -/
theorem c7_counterexample :
    RecommendationService.analyzeSpeedPatterns slowRow speedHist10
        = some { type := "performance", severity := "low" }
      ∧ "performance" ∉ specAdvisoryTypes := by
  constructor
  · unfold RecommendationService.analyzeSpeedPatterns
    rw [if_neg (by norm_num [speedHist10])]
    rw [if_pos]
    norm_num [speedHist10, cruiseRow, slowRow, takeLast, positiveSpeeds]
  · simp [specAdvisoryTypes]

/-- C7 (amended): every advisory any of the five analyzers produces has
type in {route_change, delay_alert, performance, idle_alert, gps_warning}
and severity in {low, medium, high}. -/
theorem c7_advisory_enums (shipment : Option Shipment)
    (currentLocation : Option TrackRow) (locationData : TrackRow)
    (trackingHistory : List TrackRow) (now : ℚ) (destParsed : ℝ × ℝ)
    (r : Advisory)
    (hfired : RecommendationService.analyzeRouteDeviation shipment currentLocation
          trackingHistory destParsed = some r
      ∨ RecommendationService.analyzeDelayProbability shipment trackingHistory now
          = some r
      ∨ RecommendationService.analyzeSpeedPatterns locationData trackingHistory = some r
      ∨ RecommendationService.analyzeIdleTime locationData trackingHistory now = some r
      ∨ RecommendationService.analyzeGPSAccuracy locationData = some r) :
    r.type ∈ codeAdvisoryTypes ∧ r.severity ∈ severityValues := by
  rcases hfired with h | h | h | h | h
  · rcases shipment with _ | sh
    · simp [RecommendationService.analyzeRouteDeviation] at h
    rcases currentLocation with _ | cur
    · simp [RecommendationService.analyzeRouteDeviation] at h
    unfold RecommendationService.analyzeRouteDeviation at h
    dsimp only at h
    split_ifs at h with h1 h2 h3 <;>
      (simp only [Option.some.injEq] at h; subst h;
       simp [codeAdvisoryTypes, severityValues])
  · rcases shipment with _ | sh
    · simp [RecommendationService.analyzeDelayProbability] at h
    unfold RecommendationService.analyzeDelayProbability at h
    dsimp only at h
    split_ifs at h with h1 h2 h3 <;>
      (simp only [Option.some.injEq] at h; subst h;
       simp [codeAdvisoryTypes, severityValues])
  · unfold RecommendationService.analyzeSpeedPatterns at h
    dsimp only at h
    split_ifs at h with h1 h2 <;>
      (simp only [Option.some.injEq] at h; subst h;
       simp [codeAdvisoryTypes, severityValues])
  · unfold RecommendationService.analyzeIdleTime at h
    dsimp only at h
    split_ifs at h with h1 h2 <;>
      (simp only [Option.some.injEq] at h; subst h;
       simp [codeAdvisoryTypes, severityValues])
  · unfold RecommendationService.analyzeGPSAccuracy at h
    dsimp only at h
    split_ifs at h with h1 h2 <;>
      (simp only [Option.some.injEq] at h; subst h;
       simp [codeAdvisoryTypes, severityValues])

/-- Witness for C7 (amended): the GPS analyzer fired on accuracy 2000
yields a medium `gps_warning`, whose fields lie in the enumerations. -/
theorem c7_witness :
    ({ type := "gps_warning", severity := "medium" } : Advisory).type ∈ codeAdvisoryTypes
      ∧ ({ type := "gps_warning", severity := "medium" } : Advisory).severity
          ∈ severityValues :=
  c7_advisory_enums none none
    { latitude := 10, longitude := 10, accuracy := some 2000, speed := none,
      heading := none, timestamp := 0 }
    [] 0 (0, 0) _
    (Or.inr (Or.inr (Or.inr (Or.inr (by
      unfold RecommendationService.analyzeGPSAccuracy
      norm_num)))))

/-- Latitude out of range in a request body. -/
def LatViolation (b : SmartBody) : Prop :=
  ∃ q, b.latitude = some q ∧ (q < -90 ∨ 90 < q)

/-- Longitude out of range in a request body. -/
def LonViolation (b : SmartBody) : Prop :=
  ∃ q, b.longitude = some q ∧ (q < -180 ∨ 180 < q)

/-- Accuracy above the configured maximum 1000. -/
def AccViolation (b : SmartBody) : Prop :=
  ∃ q, b.accuracy = some q ∧ 1000 < q

/-- Negative speed. -/
def SpeedViolation (b : SmartBody) : Prop :=
  ∃ q, b.speed = some q ∧ q < 0

theorem classicValidationErrors_ne_nil (b : SmartBody)
    (h : LatViolation b ∨ LonViolation b ∨ AccViolation b ∨ SpeedViolation b) :
    classicValidationErrors b ≠ [] := by
  intro hc
  rcases h with ⟨q, hb, hq⟩ | ⟨q, hb, hq⟩ | ⟨q, hb, hq⟩ | ⟨q, hb, hq⟩
  · rcases hq with hq | hq <;>
      simp [classicValidationErrors, hb, hq, List.append_eq_nil] at hc
  · rcases hq with hq | hq <;>
      simp [classicValidationErrors, hb, hq, List.append_eq_nil] at hc
  · simp [classicValidationErrors, hb, hq, List.append_eq_nil] at hc
  · simp [classicValidationErrors, hb, hq, List.append_eq_nil] at hc

theorem smartValidationErrors_ne_nil (b : SmartBody)
    (h : LatViolation b ∨ LonViolation b ∨ SpeedViolation b) :
    smartValidationErrors b ≠ [] := by
  intro hc
  rcases h with ⟨q, hb, hq⟩ | ⟨q, hb, hq⟩ | ⟨q, hb, hq⟩
  · have hn : ¬(-90 ≤ q ∧ q ≤ 90) := by
      rcases hq with hq | hq
      · intro ⟨h1, _⟩; linarith
      · intro ⟨_, h2⟩; linarith
    simp [smartValidationErrors, isFloatRange, hb, hn, List.append_eq_nil] at hc
  · have hn : ¬(-180 ≤ q ∧ q ≤ 180) := by
      rcases hq with hq | hq
      · intro ⟨h1, _⟩; linarith
      · intro ⟨_, h2⟩; linarith
    simp [smartValidationErrors, isFloatRange, hb, hn, List.append_eq_nil] at hc
  · have hn : ¬((0 : ℚ) ≤ q ∧ q ≤ 200) := by
      intro ⟨h1, _⟩; linarith
    simp [smartValidationErrors, optFloatRange, hb, hn, List.append_eq_nil] at hc

/-- C2 (amended): out-of-range latitude/longitude, accuracy above 1000 and
negative speed are all rejected by the schema-validated tracking route
before the handler runs, with zero rows persisted; the smart route
rejects out-of-range latitude/longitude and negative speed the same way,
but does not enforce the accuracy maximum (its validator only requires
accuracy to be non-negative). -/
theorem c2_validation_rejects (shipments : List Shipment) (user : SUser)
    (ctx : SmartCtx) (b : SmartBody) :
    ((LatViolation b ∨ LonViolation b ∨ AccViolation b ∨ SpeedViolation b) →
      classicRoute shipments user b
        = (.validationFailed (classicValidationErrors b), []))
    ∧ ((LatViolation b ∨ LonViolation b ∨ SpeedViolation b) →
      smartRoute ctx b = (.validationFailed, [])) := by
  constructor
  · intro h
    unfold classicRoute
    rw [if_pos (classicValidationErrors_ne_nil b h)]
  · intro h
    unfold smartRoute
    rw [if_pos (smartValidationErrors_ne_nil b h)]

/-- Witness for C2 (amended): the concrete sample with latitude 95 is
rejected with a validation error and zero rows persisted on both routes
(longitude 200 likewise falls under the proved statement). -/
theorem c2_witness :
    classicRoute [] driverUser
        { shipment_id := some 1, latitude := some 95, longitude := some 10,
          accuracy := none, speed := none, heading := none, timestamp := none }
      = (.validationFailed (classicValidationErrors
          { shipment_id := some 1, latitude := some 95, longitude := some 10,
            accuracy := none, speed := none, heading := none, timestamp := none }), [])
    ∧ smartRoute
        { shipments := [], historyRows := [],
          recFetch := .error (), dbHist := .ok none,
          now := 0, hour := 12, destParsed := (0, 0) }
        { shipment_id := some 1, latitude := some 95, longitude := some 10,
          accuracy := none, speed := none, heading := none, timestamp := none }
      = (.validationFailed, []) := by
  constructor
  · exact (c2_validation_rejects [] driverUser
      { shipments := [], historyRows := [],
        recFetch := .error (), dbHist := .ok none,
        now := 0, hour := 12, destParsed := (0, 0) } _).1
      (Or.inl ⟨95, rfl, Or.inr (by norm_num)⟩)
  · exact (c2_validation_rejects [] driverUser _ _).2
      (Or.inl ⟨95, rfl, Or.inr (by norm_num)⟩)

/-- Shipment whose destination equals the reported position (5,5). -/
noncomputable def shipAcc : Shipment :=
  { id := 1, driver_id := 7, organization_id := none, status := "in_transit",
    destination_latitude := 5, destination_longitude := 5,
    planned_delivery_time := 0 }

/-- A body whose accuracy (2000) exceeds the configured maximum 1000. -/
def bodyAcc : SmartBody :=
  { shipment_id := some 1, latitude := some 5, longitude := some 5,
    accuracy := some 2000, speed := some 10, heading := none, timestamp := none }

/-- Store context holding the shipment the body addresses. -/
noncomputable def ctxAcc : SmartCtx :=
  { shipments := [shipAcc], historyRows := [],
    recFetch := .error (), dbHist := .ok none,
    now := 0, hour := 12, destParsed := (0, 0) }

/-- C2 counterexample: on the smart ingestion route, a sample whose
accuracy (2000) exceeds the configured maximum 1000 passes validation
(that chain only requires accuracy ≥ 0), so the call is not rejected
with a validation error: it reaches the controller and is answered with
the 500 server error its malformed insert produces, with zero rows
persisted. -/
theorem c2_counterexample :
    smartValidationErrors bodyAcc = []
      ∧ (∃ q, bodyAcc.accuracy = some q ∧ 1000 < q)
      ∧ smartRoute ctxAcc bodyAcc = (.serverError, []) := by
  have hval : smartValidationErrors bodyAcc = [] := by decide
  refine ⟨hval, ⟨2000, rfl, by norm_num⟩, ?_⟩
  unfold smartRoute
  rw [if_neg (by simp [hval])]
  unfold smartTrackingController.updateLocation
  rw [if_neg (by decide)]
  have hfind : ctxAcc.shipments.find?
      (fun s => bodyAcc.shipment_id == some (s.id : ℚ)) = some shipAcc := by
    show List.find? _ [shipAcc] = some shipAcc
    rw [List.find?_cons]
    have hbeq : (bodyAcc.shipment_id == some ((shipAcc.id : ℕ) : ℚ)) = true := by
      simp [bodyAcc, shipAcc]
    rw [hbeq]
  rw [hfind]
  rfl

/-- C3: the ETA predictor's `catch` turns any internal error into the
fixed fallback (now + 2h, confidence low), and the recommendation
engine's `catch` turns any fetch fault into the empty advisory set — the
fallback parts of the claim hold as written.  The "ingestion still
succeeds" part is a code bug: the smart handler's insert is malformed
(7 columns, 6 placeholders, nonexistent `heading`/`timestamp` columns),
so every request that passes the field check and finds its shipment is
answered with the 500 server error and zero rows persisted, never with
success. -/
theorem c3_analytics_never_fault (shipment : Option Shipment)
    (currentLocation : Option (ℚ × ℚ)) (trackingHistory : Option (List TrackRow))
    (now : ℚ) (hour : ℕ) (dbHist : Except Unit (Option ℚ))
    (fetch : Except Unit (Option Shipment × List TrackRow)) (loc : TrackRow)
    (dest : ℝ × ℝ) (ctx : SmartCtx) (b : SmartBody) :
    (∀ e, ETAService.calculateETABody shipment currentLocation trackingHistory
        now hour dbHist = .error e →
      ETAService.calculateETA shipment currentLocation trackingHistory now hour dbHist
        = .caught ((now : ℝ) + 2 * 60 * 60 * 1000) "low")
    ∧ (∀ e, fetch = .error e →
      RecommendationService.analyzeTrackingData fetch loc now dest = [])
    ∧ (jsTruthy b.shipment_id → jsTruthy b.latitude → jsTruthy b.longitude →
      ∀ sh, ctx.shipments.find? (fun s => b.shipment_id == some (s.id : ℚ))
          = some sh →
      smartTrackingController.updateLocation ctx b = (.serverError, [])) := by
  refine ⟨?_, ?_, ?_⟩
  · intro e he
    unfold ETAService.calculateETA
    rw [he]
  · intro e he
    rw [he]
    rfl
  · intro h1 h2 h3 sh hfind
    unfold smartTrackingController.updateLocation
    rw [if_neg (by simp [h1, h2, h3])]
    rw [hfind]
    rfl

/-- Witness for C3: a null tracking history makes the ETA body throw and
the wrapper return the fallback; a failed fetch yields no advisories; and
the concrete valid ingestion against a store holding its shipment is
answered 500 with zero rows persisted. -/
theorem c3_witness :
    ETAService.calculateETA (some shipAcc) (some (5, 5)) none 0 12 (.ok none)
        = .caught (((0 : ℚ) : ℝ) + 2 * 60 * 60 * 1000) "low"
      ∧ RecommendationService.analyzeTrackingData (.error ()) rowA 0 (0, 0) = []
      ∧ smartTrackingController.updateLocation ctxAcc bodyAcc
          = (.serverError, []) := by
  have h := c3_analytics_never_fault (some shipAcc) (some (5, 5)) none 0 12
    (.ok none) (.error ()) rowA (0, 0) ctxAcc bodyAcc
  refine ⟨h.1 () rfl, h.2.1 () rfl, ?_⟩
  refine h.2.2 (by decide) (by decide) (by decide) shipAcc ?_
  show List.find? _ [shipAcc] = some shipAcc
  rw [List.find?_cons]
  have hbeq : (bodyAcc.shipment_id == some ((shipAcc.id : ℕ) : ℚ)) = true := by
    simp [bodyAcc, shipAcc]
  rw [hbeq]

/-- Shipment heading from the origin (0,0) to destination (0,90). -/
noncomputable def shipDelay : Shipment :=
  { id := 2, driver_id := 7, organization_id := none, status := "in_transit",
    destination_latitude := 0, destination_longitude := 90,
    planned_delivery_time := 0 }

/-- Same shipment with a planned delivery time far in the past. -/
noncomputable def shipLate : Shipment :=
  { id := 2, driver_id := 7, organization_id := none, status := "in_transit",
    destination_latitude := 0, destination_longitude := 90,
    planned_delivery_time := -(10 ^ 10) }

/-- A sample at the origin with the given speed. -/
def originRow (spd ts : ℚ) : TrackRow :=
  { latitude := 0, longitude := 0, accuracy := none, speed := some spd,
    heading := none, timestamp := ts }

/-- Five samples with speeds 10,10,10,10,20. -/
def hist5 : List TrackRow :=
  [originRow 10 0, originRow 10 1, originRow 10 2, originRow 10 3, originRow 20 4]

theorem hav_cast_origin_dest :
    RecommendationService.haversineDistance (((0:ℚ)):ℝ) (((0:ℚ)):ℝ)
        (((0:ℚ)):ℝ) (((90:ℚ)):ℝ) = 6371000 * (Real.pi / 2) := by
  show RouteAnalysisService.haversineDistance _ _ _ _ = _
  norm_num
  exact hav_eq_quarter_1

theorem dyn_eval (sh : Shipment) (hlat : sh.destination_latitude = 0)
    (hlon : sh.destination_longitude = 90) :
    RecommendationService.calculateDynamicETA (some sh) hist5 0
      = 6371000 * (Real.pi / 2) / 12 * 1000 := by
  unfold RecommendationService.calculateDynamicETA
  dsimp only
  rw [if_neg (show ¬(hist5.length < 5) by norm_num [hist5])]
  have havg : (positiveSpeeds (takeLast 10 hist5)).sum
      / ((positiveSpeeds (takeLast 10 hist5)).length : ℚ) = 12 := by
    norm_num [positiveSpeeds, takeLast, hist5, originRow]
  rw [havg]
  have hlast : hist5.getLastD defaultRow = originRow 20 4 := by
    norm_num [hist5, List.getLastD]
  rw [hlast]
  have hrem : RecommendationService.haversineDistance
      ((originRow 20 4).latitude : ℝ) ((originRow 20 4).longitude : ℝ)
      (sh.destination_latitude : ℝ) (sh.destination_longitude : ℝ)
      = 6371000 * (Real.pi / 2) := by
    rw [hlat, hlon]
    have h1 : ((originRow 20 4).latitude : ℝ) = (((0:ℚ)):ℝ) := by
      norm_num [originRow]
    have h2 : ((originRow 20 4).longitude : ℝ) = (((0:ℚ)):ℝ) := by
      norm_num [originRow]
    rw [h1, h2]
    exact hav_cast_origin_dest
  rw [hrem]
  have hjs : jsOrQ 12 10 = 12 := by norm_num [jsOrQ]
  rw [hjs]
  push_cast
  ring

theorem svc_eval :
    ETAService.calculateETA (some shipDelay) (some (0, 0)) (some hist5) 0 12 (.ok none)
      = .okRes (6371000 * (Real.pi / 2) / (40 / 3) * 1000)
          (6371000 * (Real.pi / 2)) ((40 : ℝ) / 3) "low" := by
  unfold ETAService.calculateETA ETAService.calculateETABody
  dsimp only
  have hspeed : ETAService.analyzeCurrentSpeed (some hist5) = 40 / 3 := by
    norm_num [ETAService.analyzeCurrentSpeed, hist5, originRow, takeLast,
      List.enum, List.enumFrom]
  have htraffic : ETAService.getTrafficFactor 12 = 1 := by decide
  have hhist : ETAService.getHistoricalFactor (.ok none) = 1 := rfl
  have hrem : ETAService.haversineDistance (((0:ℚ)):ℝ) (((0:ℚ)):ℝ)
      (shipDelay.destination_latitude : ℝ) (shipDelay.destination_longitude : ℝ)
      = 6371000 * (Real.pi / 2) := by
    have h1 : (shipDelay.destination_latitude : ℝ) = (((0:ℚ)):ℝ) := by
      norm_num [shipDelay]
    have h2 : (shipDelay.destination_longitude : ℝ) = (((90:ℚ)):ℝ) := by
      norm_num [shipDelay]
    rw [h1, h2]
    exact hav_cast_origin_dest
  rw [hspeed, htraffic, hhist, hrem]
  have hjs : jsOrQ (40 / 3 * 1 * 1) 10 = 40 / 3 := by norm_num [jsOrQ]
  rw [hjs]
  simp only [EtaRes.okRes.injEq]
  norm_num [ETAService.calculateConfidence, hist5]

/-- C5 counterexample: on a concrete shipment and 5-sample history the
delay analyzer's recomputed ETA (`calculateDynamicETA`, plain mean 12 of
the last positive speeds) differs from the ETA Predictor's output
(`ETAService.calculateETA`, recency-weighted mean 40/3), even with
identical clock, traffic bucket and no historical data. -/
theorem c5_counterexample :
    RecommendationService.calculateDynamicETA (some shipDelay) hist5 0
      ≠ (ETAService.calculateETA (some shipDelay) (some (0, 0)) (some hist5) 0 12
          (.ok none)).etaField.getD 0 := by
  rw [dyn_eval shipDelay (by norm_num [shipDelay]) (by norm_num [shipDelay]),
    svc_eval]
  dsimp only [EtaRes.etaField, Option.getD]
  intro h
  have hpi := Real.pi_pos
  field_simp at h
  linarith

/-- C5 (amended): the delay analyzer's comparison value is
`calculateDynamicETA`'s output — its own simpler estimate, not the ETA
Predictor's — and with at least 5 history rows it fires a `delay_alert`
exactly when that delay exceeds 30 minutes, with high severity above 60
minutes and medium otherwise. -/
theorem c5_delay_threshold (sh : Shipment) (trackingHistory : List TrackRow)
    (now : ℚ) (h5 : 5 ≤ trackingHistory.length) :
    RecommendationService.analyzeDelayProbability (some sh) trackingHistory now
      = if (RecommendationService.calculateDynamicETA (some sh) trackingHistory now
            - sh.planned_delivery_time) / (1000 * 60) > 30 then
          some { type := "delay_alert",
                 severity := if (RecommendationService.calculateDynamicETA (some sh)
                      trackingHistory now - sh.planned_delivery_time) / (1000 * 60)
                    > 60 then "high" else "medium" }
        else none := by
  unfold RecommendationService.analyzeDelayProbability
  dsimp only
  rw [if_neg (by omega)]

/-- Witness for C5 (amended): with a planned delivery time far in the
past, the analyzer fires a high-severity delay alert. -/
theorem c5_witness :
    RecommendationService.analyzeDelayProbability (some shipLate) hist5 0
      = some { type := "delay_alert", severity := "high" } := by
  rw [c5_delay_threshold shipLate hist5 0 (by norm_num [hist5])]
  rw [dyn_eval shipLate (by norm_num [shipLate]) (by norm_num [shipLate])]
  have hplan : shipLate.planned_delivery_time = -(10 ^ 10) := rfl
  rw [hplan]
  have hbig : (60 : ℝ)
      < (6371000 * (Real.pi / 2) / 12 * 1000 - -(10 ^ 10)) / (1000 * 60) := by
    have h0 : (0 : ℝ) ≤ 6371000 * (Real.pi / 2) / 12 * 1000 := by positivity
    nlinarith
  rw [if_pos (by linarith [hbig]), if_pos hbig]

theorem rightAnglePath_total :
    RouteAnalysisService.calculateTotalDistance rightAnglePath
      = 6371000 * Real.pi := by
  simp only [rightAnglePath, RouteAnalysisService.calculateTotalDistance,
    rowDistance_AB, rowDistance_BC]
  ring

theorem rowDistance_nonneg (p q : TrackRow) : 0 ≤ rowDistance p q :=
  haversine_nonneg _ _ _ _

/-- C6 counterexample: the loop path A→B→A is a completed trip with 3
samples and strictly positive travelled distance whose route efficiency
is `0`, outside the claimed interval (0,1]. -/
theorem c6_counterexample :
    RouteAnalysisService.calculateRouteEfficiency loopPath = 0
      ∧ 0 < RouteAnalysisService.calculateTotalDistance loopPath
      ∧ 2 ≤ loopPath.length := by
  refine ⟨loopPath_efficiency, ?_, by norm_num [loopPath]⟩
  rw [loopPath_total]
  positivity

/-- C6 (amended): for every trip of at least 2 samples with positive
travelled distance, the route efficiency equals the direct first-to-last
haversine distance divided by the summed segment distances and lies in
[0,1] (0 is attained by a loop, so the bound is not strictly positive);
for the concrete 3-point right-angle path the value is 1/2 < 1. -/
theorem c6_routeEfficiency_bounds (l : List TrackRow) (h2 : 2 ≤ l.length)
    (hpos : 0 < RouteAnalysisService.calculateTotalDistance l) :
    RouteAnalysisService.calculateRouteEfficiency l
        = rowDistance (l.headD defaultRow) (l.getLastD defaultRow)
          / RouteAnalysisService.calculateTotalDistance l
      ∧ 0 ≤ RouteAnalysisService.calculateRouteEfficiency l
      ∧ RouteAnalysisService.calculateRouteEfficiency l ≤ 1
      ∧ RouteAnalysisService.calculateRouteEfficiency rightAnglePath = 1 / 2 := by
  have heq : RouteAnalysisService.calculateRouteEfficiency l
      = rowDistance (l.headD defaultRow) (l.getLastD defaultRow)
        / RouteAnalysisService.calculateTotalDistance l := by
    unfold RouteAnalysisService.calculateRouteEfficiency
    rw [if_neg (by omega)]
  refine ⟨heq, ?_, ?_, rightAnglePath_efficiency⟩
  · rw [heq]
    exact div_nonneg (rowDistance_nonneg _ _) (le_of_lt hpos)
  · rw [heq, div_le_one hpos]
    rcases l with _ | ⟨p, rest⟩
    · simp at h2
    · have hhead : (p :: rest).headD defaultRow = p := rfl
      have hlast : (p :: rest).getLastD defaultRow = rest.getLastD p :=
        List.getLastD_cons defaultRow p rest
      rw [hhead, hlast]
      exact direct_le_total rest p

/-- Witness for C6 (amended): the right-angle path satisfies the bounds
with efficiency exactly 1/2. -/
theorem c6_witness :
    RouteAnalysisService.calculateRouteEfficiency rightAnglePath
        = rowDistance (rightAnglePath.headD defaultRow)
            (rightAnglePath.getLastD defaultRow)
          / RouteAnalysisService.calculateTotalDistance rightAnglePath
      ∧ 0 ≤ RouteAnalysisService.calculateRouteEfficiency rightAnglePath
      ∧ RouteAnalysisService.calculateRouteEfficiency rightAnglePath ≤ 1
      ∧ RouteAnalysisService.calculateRouteEfficiency rightAnglePath = 1 / 2 :=
  c6_routeEfficiency_bounds rightAnglePath (by norm_num [rightAnglePath])
    (by rw [rightAnglePath_total]; positivity)
